import Mathlib

/-!
# Verification of the soccer_nerdz TTL cache and prediction orchestrator

This development gives a shallow embedding of the cache subsystem
(`cache-simple`: `readCacheFile`, `writeCacheFile`, the four category
get/set pairs, `logAPICall`, `getStats`, `clearAllCache`,
`cleanupExpired`) and of the generation orchestrator
(`prediction-orchestrator.service.js` together with the league-stats and
football-api collaborators, which are modelled as oracles) and proves
properties of the embedded code.

Modelling conventions:
* The cache directory is an association list from filename to file
  content.  A file holds either a well-formed cache entry
  `{value, createdAt, expiresAt}`, the api-call log array, or is
  unparseable (`invalid`), which stands for any file whose read or
  `JSON.parse` throws.
* Timestamps are naturals (milliseconds, as produced by `Date.now()`).
* Cached payloads are opaque (`V`); JSON serialisation round-trips a
  payload unchanged, so writes store the payload itself.
* JS `String.prototype.startsWith/endsWith` are modelled on the
  character lists of Lean strings.
* External collaborators (football API, LLM) are oracles supplied as
  functions returning `Except`; an `error` result stands for a thrown
  exception (upstream failure, timeout, or failed response validation).
-/

namespace SoccerNerdz

/-- One record of the append-only api call log (`logAPICall`). -/
structure LogEntry where
  endpoint : String
  success : Bool
  cached : Bool
  timestamp : Nat
deriving Repr, DecidableEq

/-- Contents of one file in the cache directory.  `entry` is a
well-formed cache entry `{value, createdAt, expiresAt}`; `logs` is the
api-call log array stored in `api_logs.json`; `invalid` is any file on
which `JSON.parse` (or the read itself) throws. -/
inductive FileContent (V : Type) where
  | entry (value : V) (createdAt expiresAt : Nat)
  | logs (entries : List LogEntry)
  | invalid
deriving Repr, DecidableEq

/-- The cache directory: filenames with their file contents. -/
abbrev CacheDir (V : Type) : Type := List (String × FileContent V)

/-- Contents of the file named `f`, if it exists (`fs.existsSync` +
read). -/
def lookupFile {V : Type} : CacheDir V → String → Option (FileContent V)
  | [], _ => none
  | (g, c) :: rest, f => if g = f then some c else lookupFile rest f

/-- `fs.writeFileSync`: create the file or overwrite it in place. -/
def writeFile {V : Type} : CacheDir V → String → FileContent V → CacheDir V
  | [], f, c => [(f, c)]
  | (g, c') :: rest, f, c =>
      if g = f then (f, c) :: rest else (g, c') :: writeFile rest f c

/-- `fs.unlinkSync`: delete the file named `f`. -/
def removeFile {V : Type} : CacheDir V → String → CacheDir V
  | [], _ => []
  | (g, c) :: rest, f =>
      if g = f then removeFile rest f else (g, c) :: removeFile rest f

/-- JS `s.startsWith(pre)`, on character lists. -/
def strStartsWith (s pre : String) : Bool :=
  pre.data.isPrefixOf s.data

/-- JS `s.endsWith(suf)`, on character lists. -/
def strEndsWith (s suf : String) : Bool :=
  suf.data.isSuffixOf s.data

/-- One character step of `sanitizeFilename`: the regex
`/[^a-z0-9_-]/gi` keeps ASCII letters, digits, `_` and `-` and replaces
everything else with `_`; `toLowerCase()` then lower-cases the result
(replacing first and lower-casing afterwards acts characterwise). -/
def sanChar (c : Char) : Char :=
  if (('a' ≤ c ∧ c ≤ 'z') ∨ ('A' ≤ c ∧ c ≤ 'Z') ∨
      ('0' ≤ c ∧ c ≤ '9') ∨ c = '_' ∨ c = '-') then c.toLower else '_'

/-- `sanitizeFilename(str)`:
`str.replace(/[^a-z0-9_-]/gi, '_').toLowerCase()`. -/
def sanitizeFilename (s : String) : String :=
  ⟨s.data.map sanChar⟩

/-- Cache TTLs in milliseconds, from the `TTL` constant. -/
def TTL.FIXTURES : Nat := 60 * 60 * 1000
/-- match data TTL: 6 hours. -/
def TTL.MATCH_DATA : Nat := 6 * 60 * 60 * 1000
/-- predictions TTL: 7 days. -/
def TTL.PREDICTIONS : Nat := 7 * 24 * 60 * 60 * 1000
/-- league stats TTL: 12 hours. -/
def TTL.LEAGUE_STATS : Nat := 12 * 60 * 60 * 1000

/-- `readCacheFile(filename)`.  Returns the stored value together with
the directory after the read (lazy expiry may delete the file).
Absent file: `null`.  Parse failure: caught, `null`, no deletion.
`Date.now() > data.expiresAt`: delete the file and return `null`.
A `logs`-shaped file has no `expiresAt` field, so the comparison is
false and the read returns its `value` field, which is `undefined`,
i.e. absent to every caller. -/
def readCacheFile {V : Type} (now : Nat) (dir : CacheDir V) (filename : String) :
    Option V × CacheDir V :=
  match lookupFile dir filename with
  | none => (none, dir)
  | some (FileContent.entry v _ e) =>
      if now > e then (none, removeFile dir filename) else (some v, dir)
  | some (FileContent.logs _) => (none, dir)
  | some FileContent.invalid => (none, dir)

/-- `writeCacheFile(filename, value, ttl)`: store
`{value, createdAt: Date.now(), expiresAt: Date.now() + ttl}`.
(A write failure is caught and logged; the success path is modelled.) -/
def writeCacheFile {V : Type} (now : Nat) (dir : CacheDir V) (filename : String)
    (value : V) (ttl : Nat) : CacheDir V :=
  writeFile dir filename (FileContent.entry value now (now + ttl))

/-- Filename used by the fixtures category:
`` `fixtures_${sanitizeFilename(leagueKey)}.json` ``. -/
def fixturesFilename (leagueKey : String) : String :=
  "fixtures_" ++ sanitizeFilename leagueKey ++ ".json"

/-- Filename used by the match-data category:
`` `matchdata_${fixtureId}.json` ``. -/
def matchDataFilename (fixtureId : Nat) : String :=
  "matchdata_" ++ toString fixtureId ++ ".json"

/-- Filename used by the predictions category:
`` `prediction_${fixtureId}.json` ``. -/
def predictionFilename (fixtureId : Nat) : String :=
  "prediction_" ++ toString fixtureId ++ ".json"

/-- Filename used by the league-stats category:
`` `leaguestats_${sanitizeFilename(leagueKey)}.json` ``. -/
def leagueStatsFilename (leagueKey : String) : String :=
  "leaguestats_" ++ sanitizeFilename leagueKey ++ ".json"

/-- `getFixtures(leagueKey)`. -/
def getFixtures {V : Type} (now : Nat) (dir : CacheDir V) (leagueKey : String) :
    Option V × CacheDir V :=
  readCacheFile now dir (fixturesFilename leagueKey)

/-- `setFixtures(leagueKey, data)`. -/
def setFixtures {V : Type} (now : Nat) (dir : CacheDir V) (leagueKey : String)
    (data : V) : CacheDir V :=
  writeCacheFile now dir (fixturesFilename leagueKey) data TTL.FIXTURES

/-- `getMatchData(fixtureId)`. -/
def getMatchData {V : Type} (now : Nat) (dir : CacheDir V) (fixtureId : Nat) :
    Option V × CacheDir V :=
  readCacheFile now dir (matchDataFilename fixtureId)

/-- `setMatchData(fixtureId, data)`. -/
def setMatchData {V : Type} (now : Nat) (dir : CacheDir V) (fixtureId : Nat)
    (data : V) : CacheDir V :=
  writeCacheFile now dir (matchDataFilename fixtureId) data TTL.MATCH_DATA

/-- `getPrediction(fixtureId)`. -/
def getPrediction {V : Type} (now : Nat) (dir : CacheDir V) (fixtureId : Nat) :
    Option V × CacheDir V :=
  readCacheFile now dir (predictionFilename fixtureId)

/-- `setPrediction(fixtureId, prediction)`. -/
def setPrediction {V : Type} (now : Nat) (dir : CacheDir V) (fixtureId : Nat)
    (prediction : V) : CacheDir V :=
  writeCacheFile now dir (predictionFilename fixtureId) prediction TTL.PREDICTIONS

/-- `getLeagueStats(leagueKey)` (the cache accessor). -/
def getLeagueStats {V : Type} (now : Nat) (dir : CacheDir V) (leagueKey : String) :
    Option V × CacheDir V :=
  readCacheFile now dir (leagueStatsFilename leagueKey)

/-- `setLeagueStats(leagueKey, stats)`. -/
def setLeagueStats {V : Type} (now : Nat) (dir : CacheDir V) (leagueKey : String)
    (stats : V) : CacheDir V :=
  writeCacheFile now dir (leagueStatsFilename leagueKey) stats TTL.LEAGUE_STATS

/-- `logAPICall(endpoint, success, cached)`: read `api_logs.json`
(missing file: start from `[]`), push the new record, keep only the
last 1000 records, write back.  Any throw is swallowed: if the file is
unparseable (`JSON.parse` throws) or does not hold an array
(`logs.push` throws), the directory is left unchanged. -/
def logAPICall {V : Type} (now : Nat) (dir : CacheDir V) (endpoint : String)
    (success cached : Bool) : CacheDir V :=
  let record : LogEntry := ⟨endpoint, success, cached, now⟩
  match lookupFile dir "api_logs.json" with
  | none =>
      writeFile dir "api_logs.json" (FileContent.logs [record])
  | some (FileContent.logs l) =>
      let l' := l ++ [record]
      let l'' := if l'.length > 1000 then l'.drop (l'.length - 1000) else l'
      writeFile dir "api_logs.json" (FileContent.logs l'')
  | some _ => dir

/-- The per-category file counts reported by `getStats`. -/
structure CacheCounts where
  fixtures : Nat
  matchData : Nat
  predictions : Nat
  leagueStats : Nat
deriving Repr, DecidableEq

/-- The 24-hour api-call aggregates reported by `getStats`.  The derived
`cacheHitRate` display string (`toFixed(1) + '%'`, or `'0%'` when the
total is zero) is floating-point formatting of these counts and is not
modelled. -/
structure ApiCalls24h where
  total : Nat
  cached : Nat
  successful : Nat
deriving Repr, DecidableEq

/-- The value returned by `getStats`. -/
structure Stats where
  cache : CacheCounts
  apiCalls24h : ApiCalls24h
deriving Repr, DecidableEq

/-- `getStats()`: count the files of each category by filename prefix
(no expiry check), then aggregate the log records of the last 24 hours.
If `api_logs.json` exists but parsing or filtering it throws, the
surrounding `catch` returns the all-zero statistics object. -/
def getStats {V : Type} (now : Nat) (dir : CacheDir V) : Stats :=
  let names := dir.map (fun e => e.1)
  let counts : CacheCounts :=
    { fixtures := (names.filter (fun n => strStartsWith n "fixtures_")).length,
      matchData := (names.filter (fun n => strStartsWith n "matchdata_")).length,
      predictions := (names.filter (fun n => strStartsWith n "prediction_")).length,
      leagueStats := (names.filter (fun n => strStartsWith n "leaguestats_")).length }
  match lookupFile dir "api_logs.json" with
  | none => { cache := counts, apiCalls24h := ⟨0, 0, 0⟩ }
  | some (FileContent.logs l) =>
      let recent := l.filter (fun e => (e.timestamp : Int) > (now : Int) - 24 * 60 * 60 * 1000)
      { cache := counts,
        apiCalls24h :=
          { total := recent.length,
            cached := (recent.filter (fun e => e.cached)).length,
            successful := (recent.filter (fun e => e.success)).length } }
  | some _ => { cache := ⟨0, 0, 0, 0⟩, apiCalls24h := ⟨0, 0, 0⟩ }

/-- `clearAllCache()`: delete every file whose name ends in `.json`
(this includes `api_logs.json`). -/
def clearAllCache {V : Type} (dir : CacheDir V) : CacheDir V :=
  dir.filter (fun e => !strEndsWith e.1 ".json")

/-- The per-file keep decision of `cleanupExpired`: files not ending in
`.json` and the `api_logs.json` log are skipped; of the rest, an entry
is kept iff it is unexpired; an unparseable file is deleted; an
array-shaped file has no `expiresAt`, so the comparison
`Date.now() > undefined` is false and it is kept. -/
def cleanupKeep {V : Type} (now : Nat) (e : String × FileContent V) : Bool :=
  if strEndsWith e.1 ".json" ∧ e.1 ≠ "api_logs.json" then
    match e.2 with
    | FileContent.entry _ _ expiresAt => !(now > expiresAt)
    | FileContent.logs _ => true
    | FileContent.invalid => false
  else true

/-- The effect of `cleanupExpired()`: the directory after the sweep and
the `deletedCount` the function computes (and logs to the console). -/
def cleanupExpiredRun {V : Type} (now : Nat) (dir : CacheDir V) :
    CacheDir V × Nat :=
  (dir.filter (cleanupKeep now), dir.countP (fun e => !cleanupKeep now e))

/-- `cleanupExpired()` as seen by a caller: the function body has no
`return` statement, so its value is `undefined` (`none`); the computed
`deletedCount` is only logged. -/
def cleanupExpired {V : Type} (now : Nat) (dir : CacheDir V) :
    CacheDir V × Option Nat :=
  ((cleanupExpiredRun now dir).1, none)

/-! ## The generation orchestrator

Model of `PredictionOrchestrator.generateAllPredictions` together with
`LeagueStatisticsService` and the parts of `FootballAPIService` it
drives.  The external collaborators are oracles; each oracle invocation
is recorded as an `UpCall` event. -/

/-- One element of `upcomingFixtures`: the fixture id together with the
key of the league it was fetched for. -/
structure FixtureItem where
  fixtureId : Nat
  leagueKey : String
deriving Repr, DecidableEq

/-- One outbound collaborator call made during a run. -/
inductive UpCall where
  /-- `LeagueStatisticsService._fetchLeagueStatsForSeason` hitting the
  football API for a league's finished matches. -/
  | leagueFetch (leagueKey : String)
  /-- `FootballAPIService.getUpcomingFixtures` hitting the football API
  for a league's upcoming fixtures. -/
  | fixturesFetch (leagueKey : String)
  /-- `FootballAPIService.getComprehensiveMatchData` for one fixture
  (its internal fan-out of sub-requests is collapsed into one event). -/
  | matchFetch (fixtureId : Nat)
  /-- `AIAnalysisService.generatePrediction`: the LLM call. -/
  | llmCall (fixtureId : Nat)
deriving Repr, DecidableEq

/-- Is this call a per-fixture upstream call (comprehensive match-data
fetch or LLM call)? -/
def isPerFixtureUpstream : UpCall → Bool
  | UpCall.matchFetch _ => true
  | UpCall.llmCall _ => true
  | _ => false

/-- The external collaborators, as oracles.  An `Except.error` result
stands for a thrown exception. -/
structure Collab (V : Type) where
  /-- Outcome of `_fetchLeagueStatsForSeason` for a league: `error` if
  the API request throws, `ok none` if no data is available or the
  statistics cannot be calculated, `ok (some v)` on success. -/
  leagueData : String → Except Unit (Option V)
  /-- Outcome of `getUpcomingFixtures` for a league: the ids of its
  upcoming not-started fixtures, or a thrown error. -/
  fixtureIds : String → Except Unit (List Nat)
  /-- Outcome of `getComprehensiveMatchData` for a fixture. -/
  matchData : Nat → Except Unit V
  /-- Outcome of the LLM call `aiAnalysis.generatePrediction(fixture,
  matchData, leagueStats)`; `error` covers upstream errors, timeouts
  and failed response validation. -/
  llm : Nat → V → Option V → Except Unit V
  /-- Pure assembly of the `predictionData` object from the fixture,
  the match data and the LLM analysis. -/
  assemble : Nat → V → V → V

/-- The league keys of the `LEAGUES` configuration. -/
def LEAGUES : List String := ["epl", "bundesliga", "seriea", "laliga"]

/-- Association-list lookup, as used for `leagueStatsCache[leagueKey]`
(a missing key reads as `undefined`). -/
def assocFind {V : Type} : List (String × V) → String → Option V
  | [], _ => none
  | (k, v) :: rest, key => if k = key then some v else assocFind rest key

/-- State accumulated by `getAllLeagueStats`. -/
structure LeaguePhase (V : Type) where
  stats : List (String × V)
  dir : CacheDir V
  calls : List UpCall

/-- One league of `getAllLeagueStats`: `getLeagueStats` checks the
cache first (a lazy-expired entry is deleted by the read); on a miss it
fetches and calculates fresh statistics, caching them on success; every
failure is caught and yields `null`, in which case nothing is added to
`allStats`. -/
def leagueStep {V : Type} (now : Nat) (c : Collab V) (acc : LeaguePhase V)
    (k : String) : LeaguePhase V :=
  match getLeagueStats now acc.dir k with
  | (some v, d1) => { stats := acc.stats ++ [(k, v)], dir := d1, calls := acc.calls }
  | (none, d1) =>
      match c.leagueData k with
      | Except.error _ =>
          { stats := acc.stats, dir := d1, calls := acc.calls ++ [UpCall.leagueFetch k] }
      | Except.ok none =>
          { stats := acc.stats, dir := d1, calls := acc.calls ++ [UpCall.leagueFetch k] }
      | Except.ok (some v) =>
          { stats := acc.stats ++ [(k, v)], dir := setLeagueStats now d1 k v,
            calls := acc.calls ++ [UpCall.leagueFetch k] }

/-- `this.leagueStats.getAllLeagueStats(LEAGUES)`. -/
def leaguePhase {V : Type} (now : Nat) (c : Collab V) (dir : CacheDir V) :
    LeaguePhase V :=
  LEAGUES.foldl (leagueStep now c) { stats := [], dir := dir, calls := [] }

/-- Result of `getAllUpcomingFixtures`. -/
structure FixturePhase where
  fixtures : List FixtureItem
  calls : List UpCall

/-- One league of `getAllUpcomingFixtures`: fetch the league's upcoming
fixtures (one API request, recorded whether or not it succeeds) and tag
each with the league key; a per-league error is caught and the league
contributes no fixtures. -/
def fixtureStep {V : Type} (c : Collab V) (acc : FixturePhase) (k : String) :
    FixturePhase :=
  match c.fixtureIds k with
  | Except.error _ => { acc with calls := acc.calls ++ [UpCall.fixturesFetch k] }
  | Except.ok ids =>
      { fixtures := acc.fixtures ++ ids.map (fun i => ⟨i, k⟩),
        calls := acc.calls ++ [UpCall.fixturesFetch k] }

/-- `this.footballAPI.getAllUpcomingFixtures(LEAGUES, daysAhead)`. -/
def fixturesPhase {V : Type} (c : Collab V) : FixturePhase :=
  LEAGUES.foldl (fixtureStep c) { fixtures := [], calls := [] }

/-- `generateSinglePrediction(fixture, leagueKey, leagueStats)`: fetch
the comprehensive match data (a throw propagates), cache it, call the
LLM (a throw propagates, after the match data was already cached),
assemble the `predictionData` object, cache it for 7 days and return
it.  The function either returns the assembled object or throws; it
never returns a falsy value. -/
def generateSingle {V : Type} (now : Nat) (c : Collab V) (dir : CacheDir V)
    (fx : FixtureItem) (leagueStats : Option V) :
    Except Unit V × CacheDir V × List UpCall :=
  match c.matchData fx.fixtureId with
  | Except.error _ => (Except.error (), dir, [UpCall.matchFetch fx.fixtureId])
  | Except.ok md =>
      let dir1 := setMatchData now dir fx.fixtureId md
      match c.llm fx.fixtureId md leagueStats with
      | Except.error _ =>
          (Except.error (), dir1, [UpCall.matchFetch fx.fixtureId, UpCall.llmCall fx.fixtureId])
      | Except.ok analysis =>
          let pd := c.assemble fx.fixtureId md analysis
          (Except.ok pd, setPrediction now dir1 fx.fixtureId pd,
            [UpCall.matchFetch fx.fixtureId, UpCall.llmCall fx.fixtureId])

/-- Mutable state of one run of the per-fixture loop. -/
structure RunState (V : Type) where
  dir : CacheDir V
  success : Nat
  failed : Nat
  cached : Nat
  skipped : Nat
  errors : List Nat
  calls : List UpCall

/-- One iteration of the per-fixture loop: if a prediction is cached,
count it as cached and continue (no upstream call at all); otherwise
generate one; a throw is caught, increments `failed` and records the
error (modelled by the failing fixture's id) without aborting the
loop.  `skipped` would be incremented if `generateSinglePrediction`
returned a falsy value, which it never does. -/
def processFixture {V : Type} (now : Nat) (c : Collab V)
    (allStats : List (String × V)) (st : RunState V) (fx : FixtureItem) :
    RunState V :=
  match getPrediction now st.dir fx.fixtureId with
  | (some _, d1) => { st with dir := d1, cached := st.cached + 1 }
  | (none, d1) =>
      match generateSingle now c d1 fx (assocFind allStats fx.leagueKey) with
      | (Except.ok _, dir2, cs) =>
          { st with dir := dir2, success := st.success + 1, calls := st.calls ++ cs }
      | (Except.error _, dir2, cs) =>
          { st with
            dir := dir2
            failed := st.failed + 1
            errors := st.errors ++ [fx.fixtureId]
            calls := st.calls ++ cs }

/-- The per-fixture loop (step 3 of `generateAllPredictions`). -/
def runLoop {V : Type} (now : Nat) (c : Collab V) (allStats : List (String × V))
    (st : RunState V) (fixtures : List FixtureItem) : RunState V :=
  fixtures.foldl (processFixture now c allStats) st

/-- The statistics object a run returns.  (The service also initialises
a `leagueStats` field and an error's match name, which it never reads;
errors are modelled by the failing fixture ids, in order.) -/
structure RunStats where
  total : Nat
  success : Nat
  failed : Nat
  cached : Nat
  skipped : Nat
  errors : List Nat
deriving Repr, DecidableEq

/-- Everything a run produces: its statistics, the cache directory it
leaves behind and the upstream calls it made. -/
structure RunResult (V : Type) where
  stats : RunStats
  dir : CacheDir V
  calls : List UpCall

/-- `generateAllPredictions()`: fetch league statistics (cache first),
fetch the upcoming fixtures of every league, then process each fixture
in order.  The early `return` on an empty fixture list coincides with
running the loop on `[]`.  Every per-fixture failure is caught inside
the loop, so the run always completes by loop exhaustion. -/
def generateAllPredictions {V : Type} (now : Nat) (c : Collab V)
    (dir : CacheDir V) : RunResult V :=
  let lp := leaguePhase now c dir
  let fp := fixturesPhase (V := V) c
  let st0 : RunState V :=
    { dir := lp.dir, success := 0, failed := 0, cached := 0, skipped := 0,
      errors := [], calls := lp.calls ++ fp.calls }
  let st := runLoop now c lp.stats st0 fp.fixtures
  { stats :=
      { total := fp.fixtures.length, success := st.success, failed := st.failed,
        cached := st.cached, skipped := st.skipped, errors := st.errors },
    dir := st.dir,
    calls := st.calls }

/-- Does the per-fixture pipeline succeed for `fx` (match-data fetch
and LLM call both succeed)? -/
def collabOutcome {V : Type} (c : Collab V) (allStats : List (String × V))
    (fx : FixtureItem) : Bool :=
  match c.matchData fx.fixtureId with
  | Except.error _ => false
  | Except.ok md =>
      match c.llm fx.fixtureId md (assocFind allStats fx.leagueKey) with
      | Except.error _ => false
      | Except.ok _ => true

/-! ## The server's generation triggers (`README.md` server code) -/

/-- The process-wide `generationStatus` object. -/
structure GenerationStatus where
  isRunning : Bool
  lastRun : Option Nat
  lastStats : Option RunStats
deriving Repr, DecidableEq

/-- `runPredictionGeneration()`: set `isRunning`, run the orchestrator,
record the statistics and clear `isRunning`. -/
def runPredictionGeneration {V : Type} (now : Nat) (c : Collab V)
    (dir : CacheDir V) : GenerationStatus × CacheDir V × List UpCall :=
  let r := generateAllPredictions now c dir
  ({ isRunning := false, lastRun := some now, lastStats := some r.stats },
    r.dir, r.calls)

/-- The `POST /admin/generate-predictions` handler: if a run is in
progress, respond `429 Generation already in progress` and do nothing
else (nothing is queued); otherwise respond `200` and run.  Returns the
HTTP status code, the `generationStatus`, the cache directory and the
upstream calls made. -/
def postGeneratePredictions {V : Type} (now : Nat) (c : Collab V)
    (dir : CacheDir V) (gs : GenerationStatus) :
    Nat × GenerationStatus × CacheDir V × List UpCall :=
  if gs.isRunning then (429, gs, dir, [])
  else
    let r := runPredictionGeneration now c dir
    (200, r.1, r.2.1, r.2.2)

/-- Outcome of the scheduled cron callback. -/
inductive CronOutcome where
  | skipped
  | ran
deriving Repr, DecidableEq

/-- The `cron.schedule` callback: if a run is in progress, log
"already in progress, skipping" and return without queueing anything;
otherwise run. -/
def cronTrigger {V : Type} (now : Nat) (c : Collab V) (dir : CacheDir V)
    (gs : GenerationStatus) :
    CronOutcome × GenerationStatus × CacheDir V × List UpCall :=
  if gs.isRunning then (CronOutcome.skipped, gs, dir, [])
  else
    let r := runPredictionGeneration now c dir
    (CronOutcome.ran, r.1, r.2.1, r.2.2)

/-- A concrete collaborator oracle (always failing upstream, no
fixtures) used to evaluate the trigger and orchestrator models on
concrete inputs. -/
def trivialCollab : Collab Nat :=
  { leagueData := fun _ => Except.ok none
    fixtureIds := fun _ => Except.ok []
    matchData := fun _ => Except.error ()
    llm := fun _ _ _ => Except.error ()
    assemble := fun _ md _ => md }

/-- A concrete collaborator oracle for exercising an all-cached run:
one EPL fixture, every upstream call failing (it must never be made). -/
def witCollabAllCached : Collab Nat :=
  { leagueData := fun _ => Except.ok none
    fixtureIds := fun k => if k = "epl" then Except.ok [1] else Except.ok []
    matchData := fun _ => Except.error ()
    llm := fun _ _ _ => Except.error ()
    assemble := fun _ md _ => md }

/-- A concrete collaborator oracle for exercising partial failure: two
EPL fixtures, the second one failing its match-data fetch. -/
def witCollabPartial : Collab Nat :=
  { leagueData := fun _ => Except.ok none
    fixtureIds := fun k => if k = "epl" then Except.ok [1, 2] else Except.ok []
    matchData := fun i => if i = 1 then Except.ok 21 else Except.error ()
    llm := fun _ md _ => Except.ok (md + 100)
    assemble := fun _ _ a => a }

/-! ## Basic store lemmas -/

theorem lookupFile_writeFile_self {V : Type} :
    ∀ (d : CacheDir V) (f : String) (c : FileContent V),
      lookupFile (writeFile d f c) f = some c
  | [], f, c => by simp [writeFile, lookupFile]
  | (g, c') :: rest, f, c => by
      by_cases h : g = f
      · simp [writeFile, lookupFile, h]
      · simp [writeFile, lookupFile, h, lookupFile_writeFile_self rest f c]

theorem lookupFile_writeFile_ne {V : Type} :
    ∀ (d : CacheDir V) (f g : String) (c : FileContent V), g ≠ f →
      lookupFile (writeFile d f c) g = lookupFile d g
  | [], f, g, c, hne => by simp [writeFile, lookupFile, Ne.symm hne]
  | (g', c') :: rest, f, g, c, hne => by
      by_cases h : g' = f
      · subst h
        simp [writeFile, lookupFile, Ne.symm hne]
      · by_cases h2 : g' = g
        · simp [writeFile, lookupFile, h, h2, hne]
        · simp [writeFile, lookupFile, h, h2,
            lookupFile_writeFile_ne rest f g c hne]

theorem lookupFile_removeFile_ne {V : Type} :
    ∀ (d : CacheDir V) (f g : String), g ≠ f →
      lookupFile (removeFile d f) g = lookupFile d g
  | [], _, _, _ => rfl
  | (g', c') :: rest, f, g, hne => by
      by_cases h : g' = f
      · subst h
        simp [removeFile, lookupFile, Ne.symm hne,
          lookupFile_removeFile_ne rest g' g hne]
      · by_cases h2 : g' = g
        · simp [removeFile, lookupFile, h, h2, hne]
        · simp [removeFile, lookupFile, h, h2,
            lookupFile_removeFile_ne rest f g hne]

theorem readCacheFile_of_lookup_none {V : Type} (now : Nat) (d : CacheDir V)
    (f : String) (h : lookupFile d f = none) :
    readCacheFile now d f = (none, d) := by
  unfold readCacheFile
  rw [h]

theorem readCacheFile_valid {V : Type} (now : Nat) (d : CacheDir V) (f : String)
    (v : V) (cAt eAt : Nat)
    (h : lookupFile d f = some (FileContent.entry v cAt eAt)) (hle : now ≤ eAt) :
    readCacheFile now d f = (some v, d) := by
  unfold readCacheFile
  rw [h]
  simp [Nat.not_lt.mpr hle]

theorem readCacheFile_expired {V : Type} (now : Nat) (d : CacheDir V) (f : String)
    (v : V) (cAt eAt : Nat)
    (h : lookupFile d f = some (FileContent.entry v cAt eAt)) (hgt : eAt < now) :
    readCacheFile now d f = (none, removeFile d f) := by
  unfold readCacheFile
  rw [h]
  simp [hgt]

theorem readCacheFile_invalid {V : Type} (now : Nat) (d : CacheDir V) (f : String)
    (h : lookupFile d f = some FileContent.invalid) :
    readCacheFile now d f = (none, d) := by
  unfold readCacheFile
  rw [h]

theorem readCacheFile_snd_lookup {V : Type} (now : Nat) (d : CacheDir V)
    (f g : String) (hne : g ≠ f) :
    lookupFile (readCacheFile now d f).2 g = lookupFile d g := by
  unfold readCacheFile
  cases hl : lookupFile d f with
  | none => rfl
  | some c =>
      cases c with
      | entry v cAt eAt =>
          by_cases he : now > eAt
          · simp [he, lookupFile_removeFile_ne d f g hne]
          · simp [he]
      | logs l => rfl
      | invalid => rfl

/-! ## Decimal rendering of naturals is injective

`Nat.repr` is related to `Nat.digits`, from which injectivity follows;
this backs the fact that distinct fixture ids yield distinct cache
filenames. -/

theorem toDigitsCore_eq_digits :
    ∀ (f n : Nat) (acc : List Char), n ≠ 0 → n < 10 ^ f →
      Nat.toDigitsCore 10 f n acc =
        ((Nat.digits 10 n).map Nat.digitChar).reverse ++ acc := by
  intro f
  induction f with
  | zero =>
      intro n acc hn hlt
      simp at hlt
      omega
  | succ f ih =>
      intro n acc hn hlt
      by_cases h0 : n / 10 = 0
      · have hn10 : n < 10 := by omega
        have hdig : Nat.digits 10 n = [n % 10] := by
          rw [Nat.digits_def' (by norm_num : (1:Nat) < 10) (Nat.pos_of_ne_zero hn), h0]
          simp
        simp [Nat.toDigitsCore, h0, hdig]
      · have hlt' : n / 10 < 10 ^ f := by
          have hp : (10:Nat) ^ (f + 1) = 10 ^ f * 10 := pow_succ 10 f
          rw [hp] at hlt
          omega
        have step : Nat.toDigitsCore 10 (f + 1) n acc =
            Nat.toDigitsCore 10 f (n / 10) (Nat.digitChar (n % 10) :: acc) := by
          simp [Nat.toDigitsCore, h0]
        rw [step, ih (n / 10) (Nat.digitChar (n % 10) :: acc) h0 hlt',
          Nat.digits_def' (by norm_num : (1:Nat) < 10) (Nat.pos_of_ne_zero hn)]
        simp

theorem natRepr_eq_of_ne_zero (n : Nat) (hn : n ≠ 0) :
    Nat.repr n = (((Nat.digits 10 n).map Nat.digitChar).reverse).asString := by
  have hlt : n < 10 ^ (n + 1) := by
    calc n < 10 ^ n := Nat.lt_pow_self (by norm_num) n
      _ ≤ 10 ^ (n + 1) := Nat.pow_le_pow_right (by norm_num) (Nat.le_succ n)
  show (Nat.toDigits 10 n).asString = _
  unfold Nat.toDigits
  rw [toDigitsCore_eq_digits (n + 1) n [] hn hlt]
  simp

theorem digitChar_inj_lt10 :
    ∀ a < 10, ∀ b < 10, Nat.digitChar a = Nat.digitChar b → a = b := by decide

theorem map_digitChar_inj :
    ∀ (l1 l2 : List Nat), (∀ x ∈ l1, x < 10) → (∀ x ∈ l2, x < 10) →
      l1.map Nat.digitChar = l2.map Nat.digitChar → l1 = l2
  | [], [], _, _, _ => rfl
  | [], _ :: _, _, _, h => by simp at h
  | _ :: _, [], _, _, h => by simp at h
  | a :: l1, b :: l2, h1, h2, h => by
      simp only [List.map_cons, List.cons.injEq] at h
      have ha : a < 10 := h1 a (List.mem_cons_self a l1)
      have hb : b < 10 := h2 b (List.mem_cons_self b l2)
      have hab : a = b := digitChar_inj_lt10 a ha b hb h.1
      have htl : l1 = l2 :=
        map_digitChar_inj l1 l2 (fun x hx => h1 x (List.mem_cons_of_mem a hx))
          (fun x hx => h2 x (List.mem_cons_of_mem b hx)) h.2
      rw [hab, htl]

theorem string_data_ext (s t : String) (h : s.data = t.data) : s = t := by
  cases s
  cases t
  exact congrArg String.mk h

theorem natRepr_ne_zero_repr (n : Nat) (hn : n ≠ 0) : Nat.repr n ≠ Nat.repr 0 := by
  intro h
  rw [natRepr_eq_of_ne_zero n hn] at h
  have hd := congrArg String.data h
  have hrev : (Nat.digits 10 n).map Nat.digitChar = ['0'] := by
    have h0 : (Nat.repr 0).data = ['0'] := rfl
    rw [h0] at hd
    have h1 : (((Nat.digits 10 n).map Nat.digitChar).reverse).asString.data
        = ((Nat.digits 10 n).map Nat.digitChar).reverse := rfl
    rw [h1] at hd
    have := congrArg List.reverse hd
    simpa using this
  cases hL : Nat.digits 10 n with
  | nil => rw [hL] at hrev; simp at hrev
  | cons d tl =>
      rw [hL] at hrev
      simp only [List.map_cons, List.cons.injEq] at hrev
      have htl : tl = [] := by
        have := hrev.2
        simpa using this
      have hd10 : d < 10 :=
        Nat.digits_lt_base (by norm_num) (hL ▸ List.mem_cons_self d tl)
      have hd0 : d = 0 := by
        refine digitChar_inj_lt10 d hd10 0 (by norm_num) ?_
        rw [hrev.1]
        rfl
      have hofd := Nat.ofDigits_digits 10 n
      rw [hL, hd0, htl] at hofd
      simp [Nat.ofDigits] at hofd
      exact hn hofd.symm

theorem natRepr_injective (m n : Nat) (h : Nat.repr m = Nat.repr n) : m = n := by
  by_cases hm : m = 0
  · by_cases hn : n = 0
    · rw [hm, hn]
    · subst hm
      exact absurd h.symm (natRepr_ne_zero_repr n hn)
  · by_cases hn : n = 0
    · subst hn
      exact absurd h (natRepr_ne_zero_repr m hm)
    · rw [natRepr_eq_of_ne_zero m hm, natRepr_eq_of_ne_zero n hn] at h
      have hd := congrArg String.data h
      have hmap : (Nat.digits 10 m).map Nat.digitChar =
          (Nat.digits 10 n).map Nat.digitChar := by
        have hm' : (((Nat.digits 10 m).map Nat.digitChar).reverse).asString.data
            = ((Nat.digits 10 m).map Nat.digitChar).reverse := rfl
        have hn' : (((Nat.digits 10 n).map Nat.digitChar).reverse).asString.data
            = ((Nat.digits 10 n).map Nat.digitChar).reverse := rfl
        rw [hm', hn'] at hd
        have := congrArg List.reverse hd
        simpa using this
      have hdig : Nat.digits 10 m = Nat.digits 10 n :=
        map_digitChar_inj _ _
          (fun x hx => Nat.digits_lt_base (by norm_num) hx)
          (fun x hx => Nat.digits_lt_base (by norm_num) hx) hmap
      calc m = Nat.ofDigits 10 (Nat.digits 10 m) := (Nat.ofDigits_digits 10 m).symm
        _ = Nat.ofDigits 10 (Nat.digits 10 n) := by rw [hdig]
        _ = n := Nat.ofDigits_digits 10 n

theorem natToString_injective (m n : Nat) (h : toString m = toString n) : m = n :=
  natRepr_injective m n h

/-! ## Filename facts -/

theorem ne_of_data_head (s t : String) (a b : Char) (hs : s.data.head? = some a)
    (ht : t.data.head? = some b) (hab : a ≠ b) : s ≠ t := by
  intro h
  rw [h] at hs
  rw [hs] at ht
  exact hab (Option.some.inj ht)

theorem fixturesFilename_head (k : String) :
    (fixturesFilename k).data.head? = some 'f' := rfl

theorem matchDataFilename_head (i : Nat) :
    (matchDataFilename i).data.head? = some 'm' := rfl

theorem predictionFilename_head (i : Nat) :
    (predictionFilename i).data.head? = some 'p' := rfl

theorem leagueStatsFilename_head (k : String) :
    (leagueStatsFilename k).data.head? = some 'l' := rfl

theorem predictionFilename_ne_matchDataFilename (i j : Nat) :
    predictionFilename i ≠ matchDataFilename j :=
  ne_of_data_head _ _ 'p' 'm' (predictionFilename_head i)
    (matchDataFilename_head j) (by decide)

theorem predictionFilename_ne_leagueStatsFilename (i : Nat) (k : String) :
    predictionFilename i ≠ leagueStatsFilename k :=
  ne_of_data_head _ _ 'p' 'l' (predictionFilename_head i)
    (leagueStatsFilename_head k) (by decide)

theorem fixturesFilename_ne_leagueStatsFilename (k k' : String) :
    fixturesFilename k ≠ leagueStatsFilename k' :=
  ne_of_data_head _ _ 'f' 'l' (fixturesFilename_head k)
    (leagueStatsFilename_head k') (by decide)

theorem predictionFilename_inj (i j : Nat)
    (h : predictionFilename i = predictionFilename j) : i = j := by
  have hd := congrArg String.data h
  simp only [predictionFilename, String.data_append] at hd
  have h1 := List.append_cancel_right hd
  have h2 := List.append_cancel_left h1
  exact natToString_injective i j (string_data_ext _ _ h2)

theorem matchDataFilename_inj (i j : Nat)
    (h : matchDataFilename i = matchDataFilename j) : i = j := by
  have hd := congrArg String.data h
  simp only [matchDataFilename, String.data_append] at hd
  have h1 := List.append_cancel_right hd
  have h2 := List.append_cancel_left h1
  exact natToString_injective i j (string_data_ext _ _ h2)

theorem fixturesFilename_inj (k1 k2 : String)
    (h : fixturesFilename k1 = fixturesFilename k2) :
    sanitizeFilename k1 = sanitizeFilename k2 := by
  have hd := congrArg String.data h
  simp only [fixturesFilename, String.data_append] at hd
  have h1 := List.append_cancel_right hd
  have h2 := List.append_cancel_left h1
  exact string_data_ext _ _ h2

theorem leagueStatsFilename_inj (k1 k2 : String)
    (h : leagueStatsFilename k1 = leagueStatsFilename k2) :
    sanitizeFilename k1 = sanitizeFilename k2 := by
  have hd := congrArg String.data h
  simp only [leagueStatsFilename, String.data_append] at hd
  have h1 := List.append_cancel_right hd
  have h2 := List.append_cancel_left h1
  exact string_data_ext _ _ h2

/-! ## Further helper lemmas -/

theorem readCacheFile_fst_eq_of_lookup_eq {V : Type} (now : Nat)
    (d1 d2 : CacheDir V) (f g : String)
    (h : lookupFile d1 f = lookupFile d2 g) :
    (readCacheFile now d1 f).1 = (readCacheFile now d2 g).1 := by
  unfold readCacheFile
  rw [h]
  cases lookupFile d2 g with
  | none => rfl
  | some c =>
      cases c with
      | entry v cAt eAt => by_cases he : now > eAt <;> simp [he]
      | logs l => rfl
      | invalid => rfl

theorem countP_not_add_length_filter {α : Type} (p : α → Bool) :
    ∀ l : List α, l.countP (fun a => !p a) + (l.filter p).length = l.length
  | [] => rfl
  | a :: l => by
      have ih := countP_not_add_length_filter p l
      by_cases h : p a
      · simp only [List.countP_cons, List.filter_cons, h]
        simp
        omega
      · simp only [List.countP_cons, List.filter_cons, Bool.not_eq_true] at *
        simp [h]
        omega

theorem lookupFile_filter_of_true {V : Type} (p : String × FileContent V → Bool) :
    ∀ (d : CacheDir V) (name : String), (∀ c, p (name, c) = true) →
      lookupFile (d.filter p) name = lookupFile d name
  | [], _, _ => rfl
  | (g, c) :: rest, name, h => by
      by_cases hg : g = name
      · subst hg
        simp [List.filter_cons, h c, lookupFile]
      · cases hp : p (g, c) <;>
          simp [List.filter_cons, hp, lookupFile, hg,
            lookupFile_filter_of_true p rest name h]

theorem lookupFile_filter_of_false {V : Type} (p : String × FileContent V → Bool) :
    ∀ (d : CacheDir V) (name : String), (∀ c, p (name, c) = false) →
      lookupFile (d.filter p) name = none
  | [], _, _ => rfl
  | (g, c) :: rest, name, h => by
      by_cases hg : g = name
      · subst hg
        simp [List.filter_cons, h c, lookupFile,
          lookupFile_filter_of_false p rest g h]
      · cases hp : p (g, c) <;>
          simp [List.filter_cons, hp, lookupFile, hg,
            lookupFile_filter_of_false p rest name h]

/-! ## Orchestrator lemmas -/

theorem getLeagueStats_snd_lookup {V : Type} (now : Nat) (dir : CacheDir V)
    (k f : String) (hne : f ≠ leagueStatsFilename k) :
    lookupFile (getLeagueStats now dir k).2 f = lookupFile dir f :=
  readCacheFile_snd_lookup now dir (leagueStatsFilename k) f hne

theorem leagueStep_lookup_pred {V : Type} (now : Nat) (c : Collab V)
    (acc : LeaguePhase V) (k : String) (i : Nat) :
    lookupFile (leagueStep now c acc k).dir (predictionFilename i)
      = lookupFile acc.dir (predictionFilename i) := by
  have hne := predictionFilename_ne_leagueStatsFilename i k
  have hd1 := getLeagueStats_snd_lookup now acc.dir k _ hne
  unfold leagueStep
  cases hg : getLeagueStats now acc.dir k with
  | mk o d1 =>
      rw [hg] at hd1
      cases o with
      | some v => simpa using hd1
      | none =>
          cases c.leagueData k with
          | error e => simpa using hd1
          | ok ov =>
              cases ov with
              | none => simpa using hd1
              | some v =>
                  have hw : lookupFile (setLeagueStats now d1 k v)
                      (predictionFilename i) = lookupFile d1 (predictionFilename i) :=
                    lookupFile_writeFile_ne d1 (leagueStatsFilename k)
                      (predictionFilename i) _ hne
                  exact hw.trans (by simpa using hd1)

theorem leaguePhase_foldl_lookup_pred {V : Type} (now : Nat) (c : Collab V) :
    ∀ (ks : List String) (acc : LeaguePhase V) (i : Nat),
      lookupFile (List.foldl (leagueStep now c) acc ks).dir (predictionFilename i)
        = lookupFile acc.dir (predictionFilename i)
  | [], _, _ => rfl
  | k :: ks, acc, i => by
      rw [List.foldl_cons,
        leaguePhase_foldl_lookup_pred now c ks (leagueStep now c acc k) i]
      exact leagueStep_lookup_pred now c acc k i

theorem leagueStep_calls_filter {V : Type} (now : Nat) (c : Collab V)
    (acc : LeaguePhase V) (k : String) :
    (leagueStep now c acc k).calls.filter isPerFixtureUpstream
      = acc.calls.filter isPerFixtureUpstream := by
  unfold leagueStep
  cases hg : getLeagueStats now acc.dir k with
  | mk o d1 =>
      cases o with
      | some v => rfl
      | none =>
          cases c.leagueData k with
          | error e => simp [List.filter_append, isPerFixtureUpstream]
          | ok ov =>
              cases ov with
              | none => simp [List.filter_append, isPerFixtureUpstream]
              | some v => simp [List.filter_append, isPerFixtureUpstream]

theorem leaguePhase_foldl_calls_filter {V : Type} (now : Nat) (c : Collab V) :
    ∀ (ks : List String) (acc : LeaguePhase V),
      (List.foldl (leagueStep now c) acc ks).calls.filter isPerFixtureUpstream
        = acc.calls.filter isPerFixtureUpstream
  | [], _ => rfl
  | k :: ks, acc => by
      rw [List.foldl_cons,
        leaguePhase_foldl_calls_filter now c ks (leagueStep now c acc k)]
      exact leagueStep_calls_filter now c acc k

theorem fixtureStep_calls_filter {V : Type} (c : Collab V) (acc : FixturePhase)
    (k : String) :
    ((fixtureStep c acc k).calls.filter isPerFixtureUpstream)
      = acc.calls.filter isPerFixtureUpstream := by
  unfold fixtureStep
  cases c.fixtureIds k with
  | error e => simp [List.filter_append, isPerFixtureUpstream]
  | ok ids => simp [List.filter_append, isPerFixtureUpstream]

theorem fixturesPhase_foldl_calls_filter {V : Type} (c : Collab V) :
    ∀ (ks : List String) (acc : FixturePhase),
      ((List.foldl (fixtureStep c) acc ks).calls.filter isPerFixtureUpstream)
        = acc.calls.filter isPerFixtureUpstream
  | [], _ => rfl
  | k :: ks, acc => by
      rw [List.foldl_cons,
        fixturesPhase_foldl_calls_filter c ks (fixtureStep c acc k)]
      exact fixtureStep_calls_filter c acc k

theorem runLoop_all_cached {V : Type} (now : Nat) (c : Collab V)
    (allStats : List (String × V)) :
    ∀ (l : List FixtureItem) (st : RunState V),
      (∀ fx ∈ l, ∃ v cAt eAt,
        lookupFile st.dir (predictionFilename fx.fixtureId)
          = some (FileContent.entry v cAt eAt) ∧ now ≤ eAt) →
      (runLoop now c allStats st l).dir = st.dir ∧
      (runLoop now c allStats st l).cached = st.cached + l.length ∧
      (runLoop now c allStats st l).success = st.success ∧
      (runLoop now c allStats st l).failed = st.failed ∧
      (runLoop now c allStats st l).skipped = st.skipped ∧
      (runLoop now c allStats st l).errors = st.errors ∧
      (runLoop now c allStats st l).calls = st.calls
  | [], st, _ => by simp [runLoop]
  | fx :: l, st, h => by
      obtain ⟨v, cAt, eAt, hlk, hle⟩ := h fx (List.mem_cons_self fx l)
      have hread : getPrediction now st.dir fx.fixtureId = (some v, st.dir) :=
        readCacheFile_valid now st.dir _ v cAt eAt hlk hle
      have hpf : processFixture now c allStats st fx
          = { st with dir := st.dir, cached := st.cached + 1 } := by
        unfold processFixture
        rw [hread]
      have hloop : runLoop now c allStats st (fx :: l)
          = runLoop now c allStats
            { st with dir := st.dir, cached := st.cached + 1 } l := by
        unfold runLoop
        rw [List.foldl_cons, hpf]
      have ih := runLoop_all_cached now c allStats l
        { st with dir := st.dir, cached := st.cached + 1 }
        (fun fx' hfx' => h fx' (List.mem_cons_of_mem fx hfx'))
      rw [hloop]
      refine ⟨ih.1, ?_, ih.2.2.1, ih.2.2.2.1, ih.2.2.2.2.1, ih.2.2.2.2.2.1,
        ih.2.2.2.2.2.2⟩
      rw [ih.2.1]
      simp
      omega

theorem processFixture_fresh_counts {V : Type} (now : Nat) (c : Collab V)
    (allStats : List (String × V)) (st : RunState V) (fx : FixtureItem)
    (h0 : lookupFile st.dir (predictionFilename fx.fixtureId) = none) :
    (processFixture now c allStats st fx).success
      = st.success + (if collabOutcome c allStats fx then 1 else 0) ∧
    (processFixture now c allStats st fx).failed
      = st.failed + (if collabOutcome c allStats fx then 0 else 1) ∧
    (processFixture now c allStats st fx).cached = st.cached ∧
    (processFixture now c allStats st fx).skipped = st.skipped ∧
    (processFixture now c allStats st fx).errors
      = st.errors ++ (if collabOutcome c allStats fx then [] else [fx.fixtureId]) := by
  have hread : getPrediction now st.dir fx.fixtureId = (none, st.dir) :=
    readCacheFile_of_lookup_none now st.dir _ h0
  unfold processFixture
  rw [hread]
  unfold generateSingle collabOutcome
  cases hmd : c.matchData fx.fixtureId with
  | error e => simp [hmd]
  | ok md =>
      cases hllm : c.llm fx.fixtureId md (assocFind allStats fx.leagueKey) with
      | error e => simp [hmd, hllm]
      | ok analysis => simp [hmd, hllm]

theorem processFixture_fresh_lookup {V : Type} (now : Nat) (c : Collab V)
    (allStats : List (String × V)) (st : RunState V) (fx : FixtureItem)
    (h0 : lookupFile st.dir (predictionFilename fx.fixtureId) = none)
    (j : Nat) (hj : j ≠ fx.fixtureId) :
    lookupFile (processFixture now c allStats st fx).dir (predictionFilename j)
      = lookupFile st.dir (predictionFilename j) := by
  have hread : getPrediction now st.dir fx.fixtureId = (none, st.dir) :=
    readCacheFile_of_lookup_none now st.dir _ h0
  have hpm : predictionFilename j ≠ matchDataFilename fx.fixtureId :=
    predictionFilename_ne_matchDataFilename j fx.fixtureId
  have hpp : predictionFilename j ≠ predictionFilename fx.fixtureId :=
    fun h => hj (predictionFilename_inj j fx.fixtureId h)
  unfold processFixture
  rw [hread]
  unfold generateSingle
  cases hmdo : c.matchData fx.fixtureId with
  | error e => simp [hmdo]
  | ok md =>
      have hmd : lookupFile (setMatchData now st.dir fx.fixtureId md)
          (predictionFilename j) = lookupFile st.dir (predictionFilename j) :=
        lookupFile_writeFile_ne st.dir (matchDataFilename fx.fixtureId)
          (predictionFilename j) _ hpm
      cases hllm : c.llm fx.fixtureId md (assocFind allStats fx.leagueKey) with
      | error e =>
          simp only [hmdo, hllm]
          simpa using hmd
      | ok analysis =>
          have hpd : lookupFile
              (setPrediction now (setMatchData now st.dir fx.fixtureId md)
                fx.fixtureId (c.assemble fx.fixtureId md analysis))
              (predictionFilename j)
              = lookupFile (setMatchData now st.dir fx.fixtureId md)
                (predictionFilename j) :=
            lookupFile_writeFile_ne _ (predictionFilename fx.fixtureId)
              (predictionFilename j) _ hpp
          simp only [hmdo, hllm]
          simpa using hpd.trans hmd

theorem runLoop_fresh {V : Type} (now : Nat) (c : Collab V)
    (allStats : List (String × V)) :
    ∀ (l : List FixtureItem) (st : RunState V),
      (∀ fx ∈ l, lookupFile st.dir (predictionFilename fx.fixtureId) = none) →
      ((l.map fun fx => fx.fixtureId).Nodup) →
      (runLoop now c allStats st l).success
          = st.success + l.countP (fun fx => collabOutcome c allStats fx) ∧
      (runLoop now c allStats st l).failed
          = st.failed + l.countP (fun fx => !collabOutcome c allStats fx) ∧
      (runLoop now c allStats st l).cached = st.cached ∧
      (runLoop now c allStats st l).skipped = st.skipped ∧
      (runLoop now c allStats st l).errors
          = st.errors ++ (l.filter (fun fx => !collabOutcome c allStats fx)).map
              (fun fx => fx.fixtureId)
  | [], st, _, _ => by simp [runLoop]
  | fx :: l, st, h, hnd => by
      have h0 := h fx (List.mem_cons_self fx l)
      have hcounts := processFixture_fresh_counts now c allStats st fx h0
      simp only [List.map_cons, List.nodup_cons] at hnd
      have hloop : runLoop now c allStats st (fx :: l)
          = runLoop now c allStats (processFixture now c allStats st fx) l := by
        unfold runLoop
        rw [List.foldl_cons]
      have htail : ∀ fx' ∈ l,
          lookupFile (processFixture now c allStats st fx).dir
            (predictionFilename fx'.fixtureId) = none := by
        intro fx' hfx'
        have hne : fx'.fixtureId ≠ fx.fixtureId := by
          intro hEq
          exact hnd.1 (hEq ▸ List.mem_map_of_mem (fun z => z.fixtureId) hfx')
        rw [processFixture_fresh_lookup now c allStats st fx h0 fx'.fixtureId hne]
        exact h fx' (List.mem_cons_of_mem fx hfx')
      have ih := runLoop_fresh now c allStats l
        (processFixture now c allStats st fx) htail hnd.2
      rw [hloop]
      obtain ⟨hsucc, hfail, hcach, hskip, herr⟩ := hcounts
      refine ⟨?_, ?_, ?_, ?_, ?_⟩
      · rw [ih.1, hsucc, List.countP_cons]
        cases hout : collabOutcome c allStats fx <;> simp [hout] <;> omega
      · rw [ih.2.1, hfail, List.countP_cons]
        cases hout : collabOutcome c allStats fx <;> simp [hout] <;> omega
      · rw [ih.2.2.1, hcach]
      · rw [ih.2.2.2.1, hskip]
      · rw [ih.2.2.2.2, herr, List.filter_cons]
        cases hout : collabOutcome c allStats fx <;>
          simp [hout, List.append_assoc]

/-! ## The claims -/

/-- C1: For every cache entry, `get` returns the stored value iff the
entry exists and `now ≤ expiresAt` (with `expiresAt = createdAt + TTL`
as written by `set`); if the entry is present but `now > expiresAt`,
`get` deletes the entry as a side effect and returns absent; a
prediction set at `t = 0` (TTL 7 days) is returned by `get` at
`7 days − 1 ms` and absent at `7 days + 1 ms`. -/
theorem claim_C1_get_expiry {V : Type} (now : Nat) (dir dirAbsent : CacheDir V)
    (fixtureId : Nat) (v stored : V) (cAt eAt : Nat)
    (hlook : lookupFile dir (predictionFilename fixtureId) =
      some (FileContent.entry stored cAt eAt))
    (habsent : lookupFile dirAbsent (predictionFilename fixtureId) = none) :
    (now ≤ eAt → getPrediction now dir fixtureId = (some stored, dir)) ∧
    (eAt < now →
      getPrediction now dir fixtureId =
        (none, removeFile dir (predictionFilename fixtureId))) ∧
    getPrediction now dirAbsent fixtureId = (none, dirAbsent) ∧
    (getPrediction (TTL.PREDICTIONS - 1)
        (setPrediction 0 dir fixtureId v) fixtureId).1 = some v ∧
    (getPrediction (TTL.PREDICTIONS + 1)
        (setPrediction 0 dir fixtureId v) fixtureId).1 = none := by
  have hw : lookupFile (setPrediction 0 dir fixtureId v)
      (predictionFilename fixtureId) =
      some (FileContent.entry v 0 (0 + TTL.PREDICTIONS)) :=
    lookupFile_writeFile_self dir (predictionFilename fixtureId) _
  refine ⟨fun hle => readCacheFile_valid now dir _ stored cAt eAt hlook hle,
    fun hgt => readCacheFile_expired now dir _ stored cAt eAt hlook hgt,
    readCacheFile_of_lookup_none now dirAbsent _ habsent, ?_, ?_⟩
  · have h := readCacheFile_valid (TTL.PREDICTIONS - 1)
      (setPrediction 0 dir fixtureId v) (predictionFilename fixtureId)
      v 0 (0 + TTL.PREDICTIONS) hw (by simp [TTL.PREDICTIONS])
    show (readCacheFile (TTL.PREDICTIONS - 1) (setPrediction 0 dir fixtureId v)
      (predictionFilename fixtureId)).1 = some v
    rw [h]
  · have h := readCacheFile_expired (TTL.PREDICTIONS + 1)
      (setPrediction 0 dir fixtureId v) (predictionFilename fixtureId)
      v 0 (0 + TTL.PREDICTIONS) hw (by simp [TTL.PREDICTIONS])
    show (readCacheFile (TTL.PREDICTIONS + 1) (setPrediction 0 dir fixtureId v)
      (predictionFilename fixtureId)).1 = none
    rw [h]

/-- Witness for C1 at a concrete store. -/
theorem claim_C1_get_expiry_witness :
    (getPrediction (V := Nat) 50
        [("prediction_7.json", FileContent.entry 3 0 100)] 7 =
      (some 3, [("prediction_7.json", FileContent.entry 3 0 100)])) ∧
    (getPrediction (V := Nat) 101
        [("prediction_7.json", FileContent.entry 3 0 100)] 7 =
      (none, removeFile [("prediction_7.json", FileContent.entry 3 0 100)]
        (predictionFilename 7))) ∧
    getPrediction (V := Nat) 50 ([] : CacheDir Nat) 7 = (none, []) ∧
    (getPrediction (V := Nat) (TTL.PREDICTIONS - 1)
        (setPrediction 0 [("prediction_7.json", FileContent.entry 3 0 100)] 7 9)
        7).1 = some 9 ∧
    (getPrediction (V := Nat) (TTL.PREDICTIONS + 1)
        (setPrediction 0 [("prediction_7.json", FileContent.entry 3 0 100)] 7 9)
        7).1 = none := by
  have h1 := claim_C1_get_expiry (V := Nat) 50
    [("prediction_7.json", FileContent.entry 3 0 100)] [] 7 9 3 0 100
    (by decide) rfl
  have h2 := claim_C1_get_expiry (V := Nat) 101
    [("prediction_7.json", FileContent.entry 3 0 100)] [] 7 9 3 0 100
    (by decide) rfl
  exact ⟨h1.1 (by decide), h2.2.1 (by decide), h1.2.2.1, h1.2.2.2.1,
    h1.2.2.2.2⟩

/-- C2: for every category and key, `set` immediately followed by `get`
for the same key, before the category's TTL has elapsed, returns
exactly the value passed to `set`. -/
theorem claim_C2_roundtrip {V : Type} (t now : Nat) (dir : CacheDir V)
    (kF kL : String) (iM iP : Nat) (vF vM vP vL : V)
    (hF : now ≤ t + TTL.FIXTURES) (hM : now ≤ t + TTL.MATCH_DATA)
    (hP : now ≤ t + TTL.PREDICTIONS) (hL : now ≤ t + TTL.LEAGUE_STATS) :
    (getFixtures now (setFixtures t dir kF vF) kF).1 = some vF ∧
    (getMatchData now (setMatchData t dir iM vM) iM).1 = some vM ∧
    (getPrediction now (setPrediction t dir iP vP) iP).1 = some vP ∧
    (getLeagueStats now (setLeagueStats t dir kL vL) kL).1 = some vL := by
  refine ⟨?_, ?_, ?_, ?_⟩
  · have h := readCacheFile_valid now (setFixtures t dir kF vF)
      (fixturesFilename kF) vF t (t + TTL.FIXTURES)
      (lookupFile_writeFile_self dir (fixturesFilename kF) _) hF
    show (readCacheFile now (setFixtures t dir kF vF) (fixturesFilename kF)).1
      = some vF
    rw [h]
  · have h := readCacheFile_valid now (setMatchData t dir iM vM)
      (matchDataFilename iM) vM t (t + TTL.MATCH_DATA)
      (lookupFile_writeFile_self dir (matchDataFilename iM) _) hM
    show (readCacheFile now (setMatchData t dir iM vM) (matchDataFilename iM)).1
      = some vM
    rw [h]
  · have h := readCacheFile_valid now (setPrediction t dir iP vP)
      (predictionFilename iP) vP t (t + TTL.PREDICTIONS)
      (lookupFile_writeFile_self dir (predictionFilename iP) _) hP
    show (readCacheFile now (setPrediction t dir iP vP) (predictionFilename iP)).1
      = some vP
    rw [h]
  · have h := readCacheFile_valid now (setLeagueStats t dir kL vL)
      (leagueStatsFilename kL) vL t (t + TTL.LEAGUE_STATS)
      (lookupFile_writeFile_self dir (leagueStatsFilename kL) _) hL
    show (readCacheFile now (setLeagueStats t dir kL vL)
      (leagueStatsFilename kL)).1 = some vL
    rw [h]

/-- Witness for C2 at a concrete store. -/
theorem claim_C2_roundtrip_witness :
    (getFixtures (V := Nat) 10 (setFixtures 0 [] "epl" 11) "epl").1 = some 11 ∧
    (getMatchData (V := Nat) 10 (setMatchData 0 [] 4 12) 4).1 = some 12 ∧
    (getPrediction (V := Nat) 10 (setPrediction 0 [] 4 13) 4).1 = some 13 ∧
    (getLeagueStats (V := Nat) 10 (setLeagueStats 0 [] "epl" 14) "epl").1
      = some 14 :=
  claim_C2_roundtrip 0 10 [] "epl" "epl" 4 4 11 12 13 14
    (by decide) (by decide) (by decide) (by decide)

/-- C3 counterexample: on a store holding one expired prediction entry,
the sweep deletes that entry and internally counts one deletion, yet
the function's return value is `undefined` (`none`), not the count —
`cleanupExpired` has no `return` statement and only logs the count. -/
theorem claim_C3_no_return_cex :
    (cleanupExpired (V := Nat) 10
        [("prediction_1.json", FileContent.entry 7 0 5)]).2 = none ∧
    (cleanupExpired (V := Nat) 10
        [("prediction_1.json", FileContent.entry 7 0 5)]).2 ≠ some 1 ∧
    (cleanupExpiredRun (V := Nat) 10
        [("prediction_1.json", FileContent.entry 7 0 5)]).2 = 1 ∧
    (cleanupExpiredRun (V := Nat) 10
        [("prediction_1.json", FileContent.entry 7 0 5)]).1 = [] := by
  refine ⟨rfl, by decide, by decide, by decide⟩

/-- C3 (amended): `cleanupExpired` deletes every entry across all
categories whose `expiresAt` is past (and every unparseable cache
file), keeps valid entries and the `api_logs.json` call log, and
counts the deletions — but it logs the count and returns `undefined`
rather than returning the count. -/
theorem claim_C3_sweep_amended {V : Type} (now : Nat) (dir : CacheDir V)
    (f g : String) (v w : V) (cAt eAt cAt' eAt' : Nat)
    (hmem : (f, FileContent.entry v cAt eAt) ∈ dir)
    (hsuf : strEndsWith f ".json" = true) (hne : f ≠ "api_logs.json")
    (hgt : eAt < now)
    (hmem' : (g, FileContent.entry w cAt' eAt') ∈ dir) (hle : now ≤ eAt') :
    (cleanupExpired now dir).2 = none ∧
    (cleanupExpiredRun now dir).2 + (cleanupExpiredRun now dir).1.length
      = dir.length ∧
    (f, FileContent.entry v cAt eAt) ∉ (cleanupExpiredRun now dir).1 ∧
    (g, FileContent.entry w cAt' eAt') ∈ (cleanupExpiredRun now dir).1 ∧
    lookupFile (cleanupExpiredRun now dir).1 "api_logs.json"
      = lookupFile dir "api_logs.json" := by
  refine ⟨rfl, countP_not_add_length_filter (cleanupKeep now) dir, ?_, ?_, ?_⟩
  · intro hmem2
    have hkeep := (List.mem_filter.mp hmem2).2
    unfold cleanupKeep at hkeep
    rw [if_pos ⟨hsuf, hne⟩] at hkeep
    simp at hkeep
    omega
  · refine List.mem_filter.mpr ⟨hmem', ?_⟩
    have hnl : ¬ (eAt' < now) := Nat.not_lt.mpr hle
    simp only [cleanupKeep]
    split
    · simp [hnl]
    · rfl
  · refine lookupFile_filter_of_true (cleanupKeep now) dir "api_logs.json" ?_
    intro c
    simp [cleanupKeep]

/-- Witness for the amended C3 at a concrete store. -/
theorem claim_C3_sweep_amended_witness :
    (cleanupExpired (V := Nat) 10
        [("prediction_1.json", FileContent.entry 7 0 5),
         ("matchdata_2.json", FileContent.entry 8 0 99),
         ("api_logs.json", FileContent.logs [⟨"fixtures", true, false, 1⟩])]).2
      = none ∧
    (cleanupExpiredRun (V := Nat) 10
        [("prediction_1.json", FileContent.entry 7 0 5),
         ("matchdata_2.json", FileContent.entry 8 0 99),
         ("api_logs.json", FileContent.logs [⟨"fixtures", true, false, 1⟩])]).2
      + (cleanupExpiredRun (V := Nat) 10
        [("prediction_1.json", FileContent.entry 7 0 5),
         ("matchdata_2.json", FileContent.entry 8 0 99),
         ("api_logs.json", FileContent.logs [⟨"fixtures", true, false, 1⟩])]).1.length
      = 3 ∧
    ("prediction_1.json", FileContent.entry (7 : Nat) 0 5)
      ∉ (cleanupExpiredRun (V := Nat) 10
        [("prediction_1.json", FileContent.entry 7 0 5),
         ("matchdata_2.json", FileContent.entry 8 0 99),
         ("api_logs.json", FileContent.logs [⟨"fixtures", true, false, 1⟩])]).1 ∧
    ("matchdata_2.json", FileContent.entry (8 : Nat) 0 99)
      ∈ (cleanupExpiredRun (V := Nat) 10
        [("prediction_1.json", FileContent.entry 7 0 5),
         ("matchdata_2.json", FileContent.entry 8 0 99),
         ("api_logs.json", FileContent.logs [⟨"fixtures", true, false, 1⟩])]).1 ∧
    lookupFile (cleanupExpiredRun (V := Nat) 10
        [("prediction_1.json", FileContent.entry 7 0 5),
         ("matchdata_2.json", FileContent.entry 8 0 99),
         ("api_logs.json", FileContent.logs [⟨"fixtures", true, false, 1⟩])]).1
        "api_logs.json"
      = lookupFile (V := Nat)
        [("prediction_1.json", FileContent.entry 7 0 5),
         ("matchdata_2.json", FileContent.entry 8 0 99),
         ("api_logs.json", FileContent.logs [⟨"fixtures", true, false, 1⟩])]
        "api_logs.json" :=
  claim_C3_sweep_amended 10 _ "prediction_1.json" "matchdata_2.json" 7 8 0 5 0 99
    (by decide) (by decide) (by decide) (by decide) (by decide) (by decide)

/-- C4 counterexample: `clearAllCache` deletes every `*.json` file, and
the call log lives in `api_logs.json`, so clearing the cache deletes
the call log as well — contradicting "leaving the append-only call log
unchanged". -/
theorem claim_C4_deletes_log_cex :
    lookupFile (V := Nat)
        [("prediction_1.json", FileContent.entry 5 0 999),
         ("api_logs.json", FileContent.logs [⟨"fixtures", true, false, 0⟩])]
        "api_logs.json"
      = some (FileContent.logs [⟨"fixtures", true, false, 0⟩]) ∧
    lookupFile (clearAllCache (V := Nat)
        [("prediction_1.json", FileContent.entry 5 0 999),
         ("api_logs.json", FileContent.logs [⟨"fixtures", true, false, 0⟩])])
        "api_logs.json"
      = none := by
  decide

/-- C4 (amended): `clearAllCache` unconditionally deletes every `.json`
file in the cache directory — all four entry categories and also the
`api_logs.json` call log — and it is idempotent. -/
theorem claim_C4_clear_amended {V : Type} (dir : CacheDir V) (f : String)
    (hjson : strEndsWith f ".json" = true) :
    lookupFile (clearAllCache dir) f = none ∧
    clearAllCache (clearAllCache dir) = clearAllCache dir := by
  constructor
  · refine lookupFile_filter_of_false _ dir f ?_
    intro c
    simp [hjson]
  · show (dir.filter _).filter _ = dir.filter _
    rw [List.filter_filter]
    simp

/-- Witness for the amended C4 at a concrete store. -/
theorem claim_C4_clear_amended_witness :
    lookupFile (clearAllCache (V := Nat)
        [("prediction_1.json", FileContent.entry 5 0 999),
         ("api_logs.json", FileContent.logs [⟨"fixtures", true, false, 0⟩])])
        "api_logs.json" = none ∧
    clearAllCache (clearAllCache (V := Nat)
        [("prediction_1.json", FileContent.entry 5 0 999),
         ("api_logs.json", FileContent.logs [⟨"fixtures", true, false, 0⟩])])
      = clearAllCache (V := Nat)
        [("prediction_1.json", FileContent.entry 5 0 999),
         ("api_logs.json", FileContent.logs [⟨"fixtures", true, false, 0⟩])] :=
  claim_C4_clear_amended _ "api_logs.json" (by decide)

/-- C5: the code contradicts the claim.  `getStats` counts raw files by
filename prefix with no expiry filtering: on a store whose only
prediction file is already expired (`expiresAt = 5 < now = 10`), it
reports `predictions = 1`, although the read path (`getPrediction`)
treats the same entry as expired and absent.  The claim (and the spec's
`perCategoryCounts` requirement for lazy-sweep implementations) demands
the expired entry be excluded. -/
theorem claim_C5_stats_counts_expired :
    (getStats (V := Nat) 10
        [("prediction_1.json", FileContent.entry 5 0 5)]).cache.predictions
      = 1 ∧
    (getPrediction (V := Nat) 10
        [("prediction_1.json", FileContent.entry 5 0 5)] 1).1 = none ∧
    (5 : Nat) < 10 := by
  refine ⟨by decide, by decide, by decide⟩

/-- C6: at most one generation run is RUNNING at a time — a manual
trigger while `generationStatus.isRunning` is answered `429` with no
state change, no queued work and no upstream call, and the scheduled
cron trigger likewise skips; the active run's counters (local to the
running `generateAllPredictions` invocation) and the `isRunning` flag
are untouched. -/
theorem claim_C6_single_flight {V : Type} (now : Nat) (c : Collab V)
    (dir : CacheDir V) (gs : GenerationStatus) (h : gs.isRunning = true) :
    postGeneratePredictions now c dir gs = (429, gs, dir, []) ∧
    cronTrigger now c dir gs = (CronOutcome.skipped, gs, dir, []) := by
  constructor <;> simp [postGeneratePredictions, cronTrigger, h]

/-- Witness for C6 at a concrete state. -/
theorem claim_C6_single_flight_witness :
    postGeneratePredictions 5 trivialCollab ([] : CacheDir Nat)
        { isRunning := true, lastRun := none, lastStats := none } =
      (429, { isRunning := true, lastRun := none, lastStats := none }, [], []) ∧
    cronTrigger 5 trivialCollab ([] : CacheDir Nat)
        { isRunning := true, lastRun := none, lastStats := none } =
      (CronOutcome.skipped,
        { isRunning := true, lastRun := none, lastStats := none }, [], []) :=
  claim_C6_single_flight 5 trivialCollab []
    { isRunning := true, lastRun := none, lastStats := none } rfl

/-- C9 counterexample: `sanitizeFilename` lower-cases keys, so the
distinct fixtures keys `"AB"` and `"ab"` address the same file: after
`setFixtures("AB", 1)` and `setFixtures("ab", 2)`, reading key `"AB"`
yields `2` — a `set` on one key overwrote the other key's entry within
the same category. -/
theorem claim_C9_key_collision_cex :
    ("AB" : String) ≠ "ab" ∧
    (getFixtures (V := Nat) 0 (setFixtures 0 [] "AB" 1) "AB").1 = some 1 ∧
    (getFixtures (V := Nat) 0
        (setFixtures 0 (setFixtures 0 [] "AB" 1) "ab" 2) "AB").1 = some 2 := by
  refine ⟨by decide, by decide, by decide⟩

/-- C9 (amended): within the string-keyed categories (fixtures,
league-stats) keys are addressed through `sanitizeFilename`, so two
keys collide exactly when their sanitized forms coincide; keys with
distinct sanitized forms address distinct entries, distinct fixture ids
address distinct entries in the numeric-keyed categories (match-data,
prediction), and the same literal key used in two different categories
addresses distinct entries (writes in one never affect reads in the
other). -/
theorem claim_C9_key_addressing_amended {V : Type} (now t : Nat)
    (dir : CacheDir V) (k1 k2 : String) (i j : Nat) (v : V)
    (hsan : sanitizeFilename k1 ≠ sanitizeFilename k2) (hij : i ≠ j) :
    (getFixtures now (setFixtures t dir k1 v) k2).1 = (getFixtures now dir k2).1 ∧
    (getLeagueStats now (setLeagueStats t dir k1 v) k2).1
      = (getLeagueStats now dir k2).1 ∧
    (getPrediction now (setPrediction t dir i v) j).1
      = (getPrediction now dir j).1 ∧
    (getMatchData now (setMatchData t dir i v) j).1
      = (getMatchData now dir j).1 ∧
    (getLeagueStats now (setFixtures t dir k1 v) k1).1
      = (getLeagueStats now dir k1).1 ∧
    (getFixtures now (setLeagueStats t dir k1 v) k1).1
      = (getFixtures now dir k1).1 ∧
    (getPrediction now (setMatchData t dir i v) i).1
      = (getPrediction now dir i).1 ∧
    (getMatchData now (setPrediction t dir i v) i).1
      = (getMatchData now dir i).1 := by
  refine ⟨?_, ?_, ?_, ?_, ?_, ?_, ?_, ?_⟩
  · exact readCacheFile_fst_eq_of_lookup_eq now _ dir _ _
      (lookupFile_writeFile_ne dir (fixturesFilename k1) (fixturesFilename k2) _
        (fun h => hsan (fixturesFilename_inj k2 k1 h).symm))
  · exact readCacheFile_fst_eq_of_lookup_eq now _ dir _ _
      (lookupFile_writeFile_ne dir (leagueStatsFilename k1)
        (leagueStatsFilename k2) _
        (fun h => hsan (leagueStatsFilename_inj k2 k1 h).symm))
  · exact readCacheFile_fst_eq_of_lookup_eq now _ dir _ _
      (lookupFile_writeFile_ne dir (predictionFilename i) (predictionFilename j) _
        (fun h => hij (predictionFilename_inj j i h).symm))
  · exact readCacheFile_fst_eq_of_lookup_eq now _ dir _ _
      (lookupFile_writeFile_ne dir (matchDataFilename i) (matchDataFilename j) _
        (fun h => hij (matchDataFilename_inj j i h).symm))
  · exact readCacheFile_fst_eq_of_lookup_eq now _ dir _ _
      (lookupFile_writeFile_ne dir (fixturesFilename k1)
        (leagueStatsFilename k1) _
        (Ne.symm (fixturesFilename_ne_leagueStatsFilename k1 k1)))
  · exact readCacheFile_fst_eq_of_lookup_eq now _ dir _ _
      (lookupFile_writeFile_ne dir (leagueStatsFilename k1)
        (fixturesFilename k1) _
        (fixturesFilename_ne_leagueStatsFilename k1 k1))
  · exact readCacheFile_fst_eq_of_lookup_eq now _ dir _ _
      (lookupFile_writeFile_ne dir (matchDataFilename i) (predictionFilename i) _
        (predictionFilename_ne_matchDataFilename i i))
  · exact readCacheFile_fst_eq_of_lookup_eq now _ dir _ _
      (lookupFile_writeFile_ne dir (predictionFilename i) (matchDataFilename i) _
        (Ne.symm (predictionFilename_ne_matchDataFilename i i)))

/-- Witness for the amended C9 at concrete keys. -/
theorem claim_C9_key_addressing_amended_witness :
    (getFixtures (V := Nat) 0 (setFixtures 0 [] "a" 5) "b").1
      = (getFixtures (V := Nat) 0 [] "b").1 ∧
    (getLeagueStats (V := Nat) 0 (setLeagueStats 0 [] "a" 5) "b").1
      = (getLeagueStats (V := Nat) 0 [] "b").1 ∧
    (getPrediction (V := Nat) 0 (setPrediction 0 [] 1 5) 2).1
      = (getPrediction (V := Nat) 0 [] 2).1 ∧
    (getMatchData (V := Nat) 0 (setMatchData 0 [] 1 5) 2).1
      = (getMatchData (V := Nat) 0 [] 2).1 ∧
    (getLeagueStats (V := Nat) 0 (setFixtures 0 [] "a" 5) "a").1
      = (getLeagueStats (V := Nat) 0 [] "a").1 ∧
    (getFixtures (V := Nat) 0 (setLeagueStats 0 [] "a" 5) "a").1
      = (getFixtures (V := Nat) 0 [] "a").1 ∧
    (getPrediction (V := Nat) 0 (setMatchData 0 [] 1 5) 1).1
      = (getPrediction (V := Nat) 0 [] 1).1 ∧
    (getMatchData (V := Nat) 0 (setPrediction 0 [] 1 5) 1).1
      = (getMatchData (V := Nat) 0 [] 1).1 :=
  claim_C9_key_addressing_amended 0 0 [] "a" "b" 1 2 5 (by decide) (by decide)

/-- C10: `get` is total and never raises — the store's read path
(`readCacheFile`) is a total function whose every failure branch is
caught; a corrupted/unparseable entry file reads exactly like a
missing file: absent result, store untouched. -/
theorem claim_C10_corrupted_reads_as_miss {V : Type} (now : Nat)
    (dir dirAbsent : CacheDir V) (f : String)
    (hinv : lookupFile dir f = some FileContent.invalid)
    (habs : lookupFile dirAbsent f = none) :
    readCacheFile now dir f = (none, dir) ∧
    readCacheFile now dirAbsent f = (none, dirAbsent) :=
  ⟨readCacheFile_invalid now dir f hinv,
    readCacheFile_of_lookup_none now dirAbsent f habs⟩

/-- Witness for C10 at a concrete store with a corrupted entry. -/
theorem claim_C10_corrupted_reads_as_miss_witness :
    readCacheFile (V := Nat) 10
        [("prediction_1.json", FileContent.invalid)] "prediction_1.json"
      = (none, [("prediction_1.json", FileContent.invalid)]) ∧
    readCacheFile (V := Nat) 10 ([] : CacheDir Nat) "prediction_1.json"
      = (none, []) :=
  claim_C10_corrupted_reads_as_miss 10 _ [] "prediction_1.json"
    (by decide) rfl

/-- C7: running the orchestrator when every fixture in the fixture set
already has a valid (non-expired) cached prediction makes zero
per-fixture upstream collaborator calls — no comprehensive match-data
fetch and no LLM call — and produces run statistics with
`cached = total`, `success = 0` and `failed = 0`.  (The run still
issues its fixture-list requests, and refreshes league statistics if
those are not cached; the claim's "upstream calls" are the per-fixture
data fetch and LLM call it names.) -/
theorem claim_C7_idempotent_rerun {V : Type} (now : Nat) (c : Collab V)
    (dir : CacheDir V)
    (hcached : ∀ fx ∈ (fixturesPhase (V := V) c).fixtures, ∃ v cAt eAt,
      lookupFile dir (predictionFilename fx.fixtureId)
        = some (FileContent.entry v cAt eAt) ∧ now ≤ eAt) :
    (generateAllPredictions now c dir).stats.cached
      = (generateAllPredictions now c dir).stats.total ∧
    (generateAllPredictions now c dir).stats.success = 0 ∧
    (generateAllPredictions now c dir).stats.failed = 0 ∧
    (generateAllPredictions now c dir).calls.filter isPerFixtureUpstream = [] := by
  have hlp : ∀ i : Nat,
      lookupFile (leaguePhase now c dir).dir (predictionFilename i)
        = lookupFile dir (predictionFilename i) :=
    fun i => leaguePhase_foldl_lookup_pred now c LEAGUES
      { stats := [], dir := dir, calls := [] } i
  have hyp' : ∀ fx ∈ (fixturesPhase (V := V) c).fixtures, ∃ v cAt eAt,
      lookupFile (leaguePhase now c dir).dir (predictionFilename fx.fixtureId)
        = some (FileContent.entry v cAt eAt) ∧ now ≤ eAt := by
    intro fx hfx
    obtain ⟨v, cAt, eAt, hlk, hle⟩ := hcached fx hfx
    exact ⟨v, cAt, eAt, (hlp fx.fixtureId).trans hlk, hle⟩
  have hrun := runLoop_all_cached now c (leaguePhase now c dir).stats
    (fixturesPhase (V := V) c).fixtures
    { dir := (leaguePhase now c dir).dir, success := 0, failed := 0, cached := 0,
      skipped := 0, errors := []
      calls := (leaguePhase now c dir).calls ++ (fixturesPhase (V := V) c).calls }
    hyp'
  have h1 : (leaguePhase now c dir).calls.filter isPerFixtureUpstream = [] :=
    leaguePhase_foldl_calls_filter now c LEAGUES
      { stats := [], dir := dir, calls := [] }
  have h2 : (fixturesPhase (V := V) c).calls.filter isPerFixtureUpstream = [] :=
    fixturesPhase_foldl_calls_filter c LEAGUES { fixtures := [], calls := [] }
  simp only [generateAllPredictions]
  refine ⟨?_, hrun.2.2.1, hrun.2.2.2.1, ?_⟩
  · rw [hrun.2.1]
    simp
  · rw [hrun.2.2.2.2.2.2]
    show ((leaguePhase now c dir).calls
      ++ (fixturesPhase (V := V) c).calls).filter isPerFixtureUpstream = []
    rw [List.filter_append, h1, h2]
    rfl

/-- Witness for C7: one EPL fixture whose prediction is validly cached;
the run reports it as cached with no per-fixture upstream call. -/
theorem claim_C7_idempotent_rerun_witness :
    (generateAllPredictions 50 witCollabAllCached
        [("prediction_1.json", FileContent.entry 9 0 100)]).stats.cached
      = (generateAllPredictions 50 witCollabAllCached
        [("prediction_1.json", FileContent.entry 9 0 100)]).stats.total ∧
    (generateAllPredictions 50 witCollabAllCached
        [("prediction_1.json", FileContent.entry 9 0 100)]).stats.success = 0 ∧
    (generateAllPredictions 50 witCollabAllCached
        [("prediction_1.json", FileContent.entry 9 0 100)]).stats.failed = 0 ∧
    (generateAllPredictions 50 witCollabAllCached
        [("prediction_1.json", FileContent.entry 9 0 100)]).calls.filter
        isPerFixtureUpstream = [] := by
  refine claim_C7_idempotent_rerun 50 witCollabAllCached _ ?_
  intro fx hfx
  have hl : (fixturesPhase (V := Nat) witCollabAllCached).fixtures
      = [⟨1, "epl"⟩] := by decide
  rw [hl] at hfx
  simp at hfx
  subst hfx
  exact ⟨9, 0, 100, by decide, by decide⟩

/-- C8: per-fixture failures (upstream fetch error, LLM error or
validation failure, all modelled as thrown collaborator errors) are
caught inside the loop: each failing fixture increments `failed` and
appends an error record, every remaining fixture is still processed,
and the run completes by loop exhaustion with `success` counting
exactly the fixtures whose pipeline succeeded
(`success + failed = total` on a fresh cache). -/
theorem claim_C8_partial_failure {V : Type} (now : Nat) (c : Collab V)
    (dir : CacheDir V)
    (hfresh : ∀ fx ∈ (fixturesPhase (V := V) c).fixtures,
      lookupFile dir (predictionFilename fx.fixtureId) = none)
    (hnodup : ((fixturesPhase (V := V) c).fixtures.map
        fun fx => fx.fixtureId).Nodup) :
    (generateAllPredictions now c dir).stats.total
      = (fixturesPhase (V := V) c).fixtures.length ∧
    (generateAllPredictions now c dir).stats.failed
      = (fixturesPhase (V := V) c).fixtures.countP
          (fun fx => !collabOutcome c (leaguePhase now c dir).stats fx) ∧
    (generateAllPredictions now c dir).stats.success
      = (fixturesPhase (V := V) c).fixtures.countP
          (fun fx => collabOutcome c (leaguePhase now c dir).stats fx) ∧
    (generateAllPredictions now c dir).stats.errors
      = ((fixturesPhase (V := V) c).fixtures.filter
          (fun fx => !collabOutcome c (leaguePhase now c dir).stats fx)).map
          (fun fx => fx.fixtureId) ∧
    (generateAllPredictions now c dir).stats.cached = 0 ∧
    (generateAllPredictions now c dir).stats.skipped = 0 ∧
    (generateAllPredictions now c dir).stats.success
        + (generateAllPredictions now c dir).stats.failed
      = (generateAllPredictions now c dir).stats.total := by
  have hlp : ∀ i : Nat,
      lookupFile (leaguePhase now c dir).dir (predictionFilename i)
        = lookupFile dir (predictionFilename i) :=
    fun i => leaguePhase_foldl_lookup_pred now c LEAGUES
      { stats := [], dir := dir, calls := [] } i
  have hyp' : ∀ fx ∈ (fixturesPhase (V := V) c).fixtures,
      lookupFile (leaguePhase now c dir).dir (predictionFilename fx.fixtureId)
        = none :=
    fun fx hfx => (hlp fx.fixtureId).trans (hfresh fx hfx)
  have hrun := runLoop_fresh now c (leaguePhase now c dir).stats
    (fixturesPhase (V := V) c).fixtures
    { dir := (leaguePhase now c dir).dir, success := 0, failed := 0, cached := 0,
      skipped := 0, errors := []
      calls := (leaguePhase now c dir).calls ++ (fixturesPhase (V := V) c).calls }
    hyp' hnodup
  have hc := countP_not_add_length_filter
    (fun fx => collabOutcome c (leaguePhase now c dir).stats fx)
    (fixturesPhase (V := V) c).fixtures
  have he := List.countP_eq_length_filter
    (fun fx => collabOutcome c (leaguePhase now c dir).stats fx)
    (fixturesPhase (V := V) c).fixtures
  simp only [generateAllPredictions]
  refine ⟨by simp, ?_, ?_, ?_, hrun.2.2.1, hrun.2.2.2.1, ?_⟩
  · rw [hrun.2.1]
    simp
  · rw [hrun.1]
    simp
  · rw [hrun.2.2.2.2]
    simp
  · rw [hrun.1, hrun.2.1]
    simp only [Nat.zero_add]
    omega

/-- Witness for C8: two fresh EPL fixtures, the second failing its
match-data fetch — the run completes with `failed = 1`, `success = 1`,
the error recorded for fixture 2 and nothing skipped. -/
theorem claim_C8_partial_failure_witness :
    (generateAllPredictions 0 witCollabPartial ([] : CacheDir Nat)).stats.total
      = 2 ∧
    (generateAllPredictions 0 witCollabPartial ([] : CacheDir Nat)).stats.failed
      = 1 ∧
    (generateAllPredictions 0 witCollabPartial ([] : CacheDir Nat)).stats.success
      = 1 ∧
    (generateAllPredictions 0 witCollabPartial ([] : CacheDir Nat)).stats.errors
      = [2] ∧
    (generateAllPredictions 0 witCollabPartial ([] : CacheDir Nat)).stats.cached
      = 0 ∧
    (generateAllPredictions 0 witCollabPartial ([] : CacheDir Nat)).stats.skipped
      = 0 := by
  have h := claim_C8_partial_failure 0 witCollabPartial []
    (fun fx _ => rfl) (by decide)
  exact ⟨h.1.trans (by decide), h.2.1.trans (by decide),
    h.2.2.1.trans (by decide), h.2.2.2.1.trans (by decide),
    h.2.2.2.2.1, h.2.2.2.2.2.1⟩

end SoccerNerdz
